import Mathlib

/-!
# The protocol binding of atom/browser/api/atom_api_protocol.cc

A shallow embedding of the scripting binding for custom protocols:

* the process-wide list of custom standard schemes (g_standard_schemes,
  GetStandardSchemes, atom::api::RegisterStandardSchemes and the module-level
  registerStandardSchemes binding);
* the two tasks that run against the job factory (RegisterProtocolInIO and
  UnregisterProtocolInIO);
* the reply that reports the outcome to the script (OnIOCompleted and
  ErrorCodeToString);
* the methods that post those tasks to the network thread (RegisterProtocol,
  UnregisterProtocol and IsProtocolHandled).

The job factory is a Chromium class and is taken as a parameter: every general
theorem holds for any factory state and any implementation of the two factory
operations the binding uses. Calls into the factory and calls of the script
callback are recorded in logs, so that statements such as "SetProtocolHandler
is not called" or "the callback runs exactly once" can be stated. Posting a
task with a reply is likewise a Chromium service; its contract is given as two
queues and two scheduling steps, and the properties of the methods hold under
every schedule.
-/

/-! ## Services of the host process used by RegisterStandardSchemes -/

namespace url

/-- The scheme type passed to url::AddStandardScheme; the source only uses
SCHEME_WITH_HOST. -/
inductive SchemeType where
  | SCHEME_WITH_HOST
  deriving DecidableEq, Repr

end url

namespace atom.switches

/-- The command-line switch names the source refers to. Their spelling lives in
atom/common/options_switches.h, so a switch is kept symbolic. -/
inductive Switch where
  | kStandardSchemes
  deriving DecidableEq, Repr

end atom.switches

namespace base

/-- The function base::JoinString(parts, separator). -/
def JoinString (parts : List String) (separator : String) : String :=
  separator.intercalate parts

end base

/-- The state of the browser process that the standard-scheme functions read
and write.

* g_standard_schemes: the file-level global of the same name;
* url_standard_schemes: the schemes added by url::AddStandardScheme, oldest first;
* web_safe_schemes: the schemes given to
  ChildProcessSecurityPolicy::RegisterWebSafeScheme, oldest first;
* command_line: the switches appended to the command line of the current
  process, oldest first;
* browser_is_ready: the value of atom::Browser::Get()->is_ready(). -/
structure Process where
  g_standard_schemes : List String
  url_standard_schemes : List (String × url.SchemeType)
  web_safe_schemes : List String
  command_line : List (atom.switches.Switch × String)
  browser_is_ready : Bool
  deriving DecidableEq, Repr

/-- The C string scheme.c_str() as its reader sees it: the characters of the
string before its first NUL character. -/
def c_str (s : String) : String :=
  String.mk (s.data.takeWhile (fun c => c != Char.ofNat 0))

namespace url

/-- The call url::AddStandardScheme(new_scheme, type), whose first argument is a
C string. -/
def AddStandardScheme (new_scheme : String) (type : SchemeType) (p : Process) : Process :=
  { p with url_standard_schemes := p.url_standard_schemes ++ [(new_scheme, type)] }

end url

namespace content.ChildProcessSecurityPolicy

/-- The call policy->RegisterWebSafeScheme(scheme). -/
def RegisterWebSafeScheme (scheme : String) (p : Process) : Process :=
  { p with web_safe_schemes := p.web_safe_schemes ++ [scheme] }

end content.ChildProcessSecurityPolicy

namespace base.CommandLine

/-- The call base::CommandLine::ForCurrentProcess()->AppendSwitchASCII(name, value). -/
def AppendSwitchASCII (name : atom.switches.Switch) (value : String) (p : Process) :
    Process :=
  { p with command_line := p.command_line ++ [(name, value)] }

end base.CommandLine

/-! ## The standard-scheme list -/

namespace atom.api

/-- The function atom::api::GetStandardSchemes: a copy of g_standard_schemes. -/
def GetStandardSchemes (p : Process) : List String :=
  p.g_standard_schemes

/-- The function atom::api::RegisterStandardSchemes: the global is assigned the
argument, every scheme of the argument is added to the URL library (as the C
string scheme.c_str()) and to the child-process security policy, and the joined
list is appended to the command line. -/
def RegisterStandardSchemes (schemes : List String) (p : Process) : Process :=
  let p1 : Process := { p with g_standard_schemes := schemes }
  let p2 : Process :=
    schemes.foldl
      (fun q scheme =>
        content.ChildProcessSecurityPolicy.RegisterWebSafeScheme scheme
          (url.AddStandardScheme (c_str scheme) url.SchemeType.SCHEME_WITH_HOST q))
      p1
  base.CommandLine.AppendSwitchASCII atom.switches.Switch.kStandardSchemes
    (base.JoinString schemes ",") p2

/-- A run of atom::api::RegisterStandardSchemes once per element of calls, in
order. -/
def RegisterStandardSchemesSeq (calls : List (List String)) (p : Process) : Process :=
  calls.foldl (fun q schemes => RegisterStandardSchemes schemes q) p

end atom.api

/-- The module-level binding registerStandardSchemes (the function
RegisterStandardSchemes of the anonymous namespace). The first component of the
result is the message given to args->ThrowError, if it was called. -/
def RegisterStandardSchemes (schemes : List String) (p : Process) :
    Option String × Process :=
  if p.browser_is_ready then
    (some "protocol.registerStandardSchemes should be called before app is ready", p)
  else
    (none, atom.api.RegisterStandardSchemes schemes p)

/-! ## The job factory -/

namespace net

/-- The two operations of the job factory that the binding calls, over a
factory state σ and a type η of protocol handlers. IsHandledProtocol is a
const member function, so it only reads the state; SetProtocolHandler returns
its boolean result together with the state it leaves. A null handler is
none. -/
structure URLRequestJobFactory (σ η : Type) where
  IsHandledProtocol : σ → String → Bool
  SetProtocolHandler : σ → String → Option η → Bool × σ

/-! The class net::URLRequestJobFactoryImpl, to which the source casts
job_factory(), belongs to the Chromium network stack and not to this repository.
The definitions below describe its behaviour and are used only to build concrete
factories for the closed theorems; no general theorem depends on them. -/

/-- The schemes the Chromium network stack serves without any registered handler
(the built-in http, https, ws and wss factories of URLRequestJobManager). -/
def SupportsScheme (scheme : String) : Bool :=
  decide (scheme ∈ ["http", "https", "ws", "wss"])

/-- The state of the Chromium class URLRequestJobFactoryImpl: its map from scheme
to handler, as an association list with distinct keys. -/
structure URLRequestJobFactoryImpl (η : Type) where
  protocol_handler_map_ : List (String × η)
  deriving DecidableEq, Repr

/-- Membership of a key in the handler map. -/
def ContainsKey {η : Type} (m : List (String × η)) (scheme : String) : Bool :=
  m.any (fun entry => entry.1 == scheme)

/-- The member URLRequestJobFactoryImpl::IsHandledProtocol: the scheme is in the
map or is served by a built-in factory. -/
def URLRequestJobFactoryImpl.IsHandledProtocol {η : Type}
    (f : URLRequestJobFactoryImpl η) (scheme : String) : Bool :=
  ContainsKey f.protocol_handler_map_ scheme || SupportsScheme scheme

/-- The member URLRequestJobFactoryImpl::SetProtocolHandler: a null handler
erases the entry of the scheme and fails when there is none; a non-null handler
is inserted and fails when the scheme already has an entry. -/
def URLRequestJobFactoryImpl.SetProtocolHandler {η : Type}
    (f : URLRequestJobFactoryImpl η) (scheme : String) (protocol_handler : Option η) :
    Bool × URLRequestJobFactoryImpl η :=
  match protocol_handler with
  | none =>
    if ContainsKey f.protocol_handler_map_ scheme then
      (true, { protocol_handler_map_ :=
                 f.protocol_handler_map_.filter (fun entry => !(entry.1 == scheme)) })
    else
      (false, f)
  | some h =>
    if ContainsKey f.protocol_handler_map_ scheme then
      (false, f)
    else
      (true, { protocol_handler_map_ := f.protocol_handler_map_ ++ [(scheme, h)] })

/-- The concrete factory as an instance of the factory operations. It is the
factory used for the concrete inputs below. -/
def URLRequestJobFactoryImpl.ops (η : Type) :
    URLRequestJobFactory (URLRequestJobFactoryImpl η) η where
  IsHandledProtocol := URLRequestJobFactoryImpl.IsHandledProtocol
  SetProtocolHandler := URLRequestJobFactoryImpl.SetProtocolHandler

end net

namespace brightray

/-- A call made into the job factory. -/
inductive FactoryCall (η : Type) where
  | IsHandledProtocol (scheme : String)
  | SetProtocolHandler (scheme : String) (protocol_handler : Option η)
  deriving DecidableEq, Repr

/-- The request context reached through request_context_getter: the state of
its job factory and the log of the calls made into the factory, oldest
first. -/
structure URLRequestContextGetter (σ η : Type) where
  job_factory : σ
  calls : List (FactoryCall η)
  deriving DecidableEq, Repr

/-- The calls of SetProtocolHandler in a call log, with their arguments. -/
def SetProtocolHandlerCalls {η : Type} (calls : List (FactoryCall η)) :
    List (String × Option η) :=
  calls.filterMap fun c =>
    match c with
    | FactoryCall.SetProtocolHandler scheme h => some (scheme, h)
    | FactoryCall.IsHandledProtocol _ => none

/-- The call job_factory->IsHandledProtocol(scheme), logged. -/
def URLRequestContextGetter.IsHandledProtocol {σ η : Type}
    (F : net.URLRequestJobFactory σ η) (scheme : String)
    (g : URLRequestContextGetter σ η) : Bool × URLRequestContextGetter σ η :=
  (F.IsHandledProtocol g.job_factory scheme,
   { g with calls := g.calls ++ [FactoryCall.IsHandledProtocol scheme] })

/-- The call job_factory->SetProtocolHandler(scheme, protocol_handler), logged. -/
def URLRequestContextGetter.SetProtocolHandler {σ η : Type}
    (F : net.URLRequestJobFactory σ η) (scheme : String) (protocol_handler : Option η)
    (g : URLRequestContextGetter σ η) : Bool × URLRequestContextGetter σ η :=
  ((F.SetProtocolHandler g.job_factory scheme protocol_handler).1,
   { job_factory := (F.SetProtocolHandler g.job_factory scheme protocol_handler).2,
     calls := g.calls ++ [FactoryCall.SetProtocolHandler scheme protocol_handler] })

end brightray

/-! ## The Protocol class -/

namespace atom.api.Protocol

/-- Modelled from the spec: the enumeration Protocol::ProtocolError is declared
in atom/browser/api/atom_api_protocol.h, which is not among the sources. Its
enumerators are the six that atom_api_protocol.cc names. -/
inductive ProtocolError where
  | PROTOCOL_OK
  | PROTOCOL_FAIL
  | PROTOCOL_REGISTERED
  | PROTOCOL_NOT_REGISTERED
  | PROTOCOL_INTERCEPTED
  | PROTOCOL_NOT_INTERCEPTED
  deriving DecidableEq, Repr

/-- The request-job classes RegisterProtocol is instantiated with in
BuildPrototype. -/
inductive RequestJob where
  | URLRequestStringJob
  | URLRequestBufferJob
  | URLRequestFetchJob
  deriving DecidableEq, Repr

/-- The handler object new CustomProtocolHandler<RequestJob>(isolate,
request_context_getter.get(), handler): the job class it creates and the script
handler it wraps, of a type H. -/
structure CustomProtocolHandler (H : Type) where
  job : RequestJob
  handler : H
  deriving DecidableEq, Repr

/-- The static member Protocol::RegisterProtocolInIO<RequestJob>, returning its
result and the request context it leaves. -/
def RegisterProtocolInIO {σ H : Type}
    (F : net.URLRequestJobFactory σ (CustomProtocolHandler H)) (job : RequestJob)
    (request_context_getter : brightray.URLRequestContextGetter σ (CustomProtocolHandler H))
    (scheme : String) (handler : H) :
    ProtocolError × brightray.URLRequestContextGetter σ (CustomProtocolHandler H) :=
  let handled := brightray.URLRequestContextGetter.IsHandledProtocol F scheme
    request_context_getter
  if handled.1 then
    (ProtocolError.PROTOCOL_REGISTERED, handled.2)
  else
    let protocol_handler : CustomProtocolHandler H := { job := job, handler := handler }
    let set := brightray.URLRequestContextGetter.SetProtocolHandler F scheme
      (some protocol_handler) handled.2
    if set.1 then
      (ProtocolError.PROTOCOL_OK, set.2)
    else
      (ProtocolError.PROTOCOL_FAIL, set.2)

/-- The static member Protocol::UnregisterProtocolInIO, returning its result and
the request context it leaves. The result of SetProtocolHandler is not used. -/
def UnregisterProtocolInIO {σ η : Type}
    (F : net.URLRequestJobFactory σ η)
    (request_context_getter : brightray.URLRequestContextGetter σ η)
    (scheme : String) :
    ProtocolError × brightray.URLRequestContextGetter σ η :=
  let handled := brightray.URLRequestContextGetter.IsHandledProtocol F scheme
    request_context_getter
  if !handled.1 then
    (ProtocolError.PROTOCOL_NOT_REGISTERED, handled.2)
  else
    let set := brightray.URLRequestContextGetter.SetProtocolHandler F scheme none handled.2
    (ProtocolError.PROTOCOL_OK, set.2)

/-- The member Protocol::ErrorCodeToString. -/
def ErrorCodeToString (error : ProtocolError) : String :=
  match error with
  | ProtocolError.PROTOCOL_FAIL => "Failed to manipulate protocol factory"
  | ProtocolError.PROTOCOL_REGISTERED => "The scheme has been registered"
  | ProtocolError.PROTOCOL_NOT_REGISTERED => "The scheme has not been registered"
  | ProtocolError.PROTOCOL_INTERCEPTED => "The scheme has been intercepted"
  | ProtocolError.PROTOCOL_NOT_INTERCEPTED => "The scheme has not been intercepted"
  | _ => "Unexpected error"

/-- The values OnIOCompleted passes to the completion callback: v8::Null(isolate)
and v8::Exception::Error(message). -/
inductive V8Value where
  | Null
  | Error (message : String)
  deriving DecidableEq, Repr

/-- What the reply does on the script side: building an error message with
ErrorCodeToString and running the completion callback with an argument. -/
inductive ScriptEvent where
  | ErrorCodeToString (error : ProtocolError)
  | Run (argument : V8Value)
  deriving DecidableEq, Repr

/-- The script side seen by the reply: a state τ the callback acts on and the log
of script events, oldest first. -/
structure Script (τ : Type) where
  state : τ
  events : List ScriptEvent

/-- The type Protocol::CompletionCallback: none is the null callback, some run
is a callback that maps its argument to an action on the script state. -/
abbrev CompletionCallback (τ : Type) : Type := Option (V8Value → τ → τ)

/-- The arguments of the callback runs in an event log, oldest first. -/
def Runs (events : List ScriptEvent) : List V8Value :=
  events.filterMap fun e =>
    match e with
    | ScriptEvent.Run v => some v
    | ScriptEvent.ErrorCodeToString _ => none

/-- The error messages built in an event log, oldest first. -/
def Messages (events : List ScriptEvent) : List ProtocolError :=
  events.filterMap fun e =>
    match e with
    | ScriptEvent.Run _ => none
    | ScriptEvent.ErrorCodeToString error => some error

/-- The call callback.Run(argument) of a non-null callback, logged. -/
def Run {τ : Type} (run : V8Value → τ → τ) (argument : V8Value) (s : Script τ) :
    Script τ :=
  { state := run argument s.state, events := s.events ++ [ScriptEvent.Run argument] }

/-- The call ErrorCodeToString(error) made by OnIOCompleted, logged. -/
def BuildMessage {τ : Type} (error : ProtocolError) (s : Script τ) : String × Script τ :=
  (ErrorCodeToString error,
   { s with events := s.events ++ [ScriptEvent.ErrorCodeToString error] })

/-- The member Protocol::OnIOCompleted. -/
def OnIOCompleted {τ : Type} (callback : CompletionCallback τ) (error : ProtocolError)
    (s : Script τ) : Script τ :=
  match callback with
  | none => s
  | some run =>
    if error = ProtocolError.PROTOCOL_OK then
      Run run V8Value.Null s
    else
      let str := BuildMessage error s
      Run run (V8Value.Error str.1) str.2

end atom.api.Protocol

/-! ## Posting a task to the network thread -/

namespace content

/-! The function content::BrowserThread::PostTaskAndReplyWithResult belongs to
Chromium and not to this repository. The definitions below describe its
contract: the task is queued for the thread named in the call and runs there
later, and when it has run, the reply is queued for the thread that made the call
and runs there later with the result of the task. -/

/-- The thread identifiers of content::BrowserThread the binding is concerned
with: UI, the thread of the script and of the Protocol object, and the network
thread that owns the job factory, BrowserThread::IO in the source and written
ThreadIO here. -/
inductive BrowserThread.ID where
  | UI
  | ThreadIO
  deriving DecidableEq, Repr

/-- A task queued by PostTaskAndReplyWithResult: the thread it is posted to, and
what running it does to the state γ of that thread, together with the reply
bound to the result of the task, an action on the state υ of the posting
thread. -/
structure PostedTask (γ υ : Type) where
  identifier : BrowserThread.ID
  run : γ → (υ → υ) × γ

/-- The two threads: the state owned by the network thread, the state owned by
the thread that makes the calls, the tasks queued and not yet run, and the
replies queued and not yet run, both oldest first. -/
structure BrowserThreads (γ υ : Type) where
  network : γ
  origin : υ
  posted : List (PostedTask γ υ)
  replies : List (υ → υ)

/-- The call content::BrowserThread::PostTaskAndReplyWithResult(identifier,
FROM_HERE, task, reply) made on the origin thread: the task is queued, nothing
is run. -/
def BrowserThread.PostTaskAndReplyWithResult {γ υ ρ : Type}
    (identifier : BrowserThread.ID) (task : γ → ρ × γ) (reply : ρ → υ → υ)
    (t : BrowserThreads γ υ) : BrowserThreads γ υ :=
  { t with posted := t.posted ++
      [{ identifier := identifier, run := fun g => (reply (task g).1, (task g).2) }] }

/-- The network thread runs the oldest queued task, if it is posted to it: the
task acts on the state of the network thread, and the reply, bound to the result
of the task, is queued for the origin thread. -/
def BrowserThreads.RunTask {γ υ : Type} (t : BrowserThreads γ υ) : BrowserThreads γ υ :=
  match t.posted with
  | [] => t
  | p :: rest =>
    match p.identifier with
    | BrowserThread.ID.ThreadIO =>
      { network := (p.run t.network).2, origin := t.origin, posted := rest,
        replies := t.replies ++ [(p.run t.network).1] }
    | BrowserThread.ID.UI => t

/-- The origin thread runs the oldest queued reply, if there is one. -/
def BrowserThreads.RunReply {γ υ : Type} (t : BrowserThreads γ υ) : BrowserThreads γ υ :=
  match t.replies with
  | [] => t
  | reply :: rest =>
    { network := t.network, origin := reply t.origin, posted := t.posted, replies := rest }

/-- A scheduling step: the network thread takes a task or the origin thread takes
a reply. -/
inductive Step where
  | RunTask
  | RunReply
  deriving DecidableEq, Repr

/-- The effect of one scheduling step. -/
def Step.apply {γ υ : Type} (step : Step) (t : BrowserThreads γ υ) : BrowserThreads γ υ :=
  match step with
  | Step.RunTask => t.RunTask
  | Step.RunReply => t.RunReply

/-- The effect of a schedule, a list of scheduling steps taken in order. -/
def Run {γ υ : Type} (steps : List Step) (t : BrowserThreads γ υ) : BrowserThreads γ υ :=
  steps.foldl (fun q step => step.apply q) t

end content

namespace mate

/-- The class mate::Arguments as far as the methods use it: the completion
callback that args->GetNext(&callback) finds, null when the script passed
none. -/
structure Arguments (τ : Type) where
  next : atom.api.Protocol.CompletionCallback τ

/-- The call args->GetNext(&callback) on a default-constructed callback; the
result is what callback holds afterwards. -/
def Arguments.GetNext {τ : Type} (args : Arguments τ) :
    atom.api.Protocol.CompletionCallback τ :=
  args.next

end mate

namespace atom.api.Protocol

/-- The state owned by the thread the Protocol object lives on: the script side,
and whether the weak pointers handed out by GetWeakPtr() are still valid, that
is whether the Protocol object still exists. -/
structure Owner (τ : Type) where
  script : Script τ
  weak_ptr_valid : Bool

/-- The reply base::Bind(&Protocol::OnIOCompleted, GetWeakPtr(), callback): a
method bound to a weak pointer runs only while the pointer is valid. -/
def BindOnIOCompleted {τ : Type} (callback : CompletionCallback τ) (error : ProtocolError)
    (o : Owner τ) : Owner τ :=
  if o.weak_ptr_valid then
    { o with script := OnIOCompleted callback error o.script }
  else
    o

/-- The type Protocol::BooleanCallback: a callback that maps a boolean to an
action on the script state. -/
abbrev BooleanCallback (τ : Type) : Type := Bool → τ → τ

/-- The call callback.Run(result) of a boolean callback passed as the reply. -/
def RunBoolean {τ : Type} (callback : BooleanCallback τ) (result : Bool) (o : Owner τ) :
    Owner τ :=
  { o with script := { o.script with state := callback result o.script.state } }

/-- The member Protocol::RegisterProtocol<RequestJob>. -/
def RegisterProtocol {σ H τ : Type}
    (F : net.URLRequestJobFactory σ (CustomProtocolHandler H)) (job : RequestJob)
    (scheme : String) (handler : H) (args : mate.Arguments τ)
    (t : content.BrowserThreads
      (brightray.URLRequestContextGetter σ (CustomProtocolHandler H)) (Owner τ)) :
    content.BrowserThreads
      (brightray.URLRequestContextGetter σ (CustomProtocolHandler H)) (Owner τ) :=
  let callback := args.GetNext
  content.BrowserThread.PostTaskAndReplyWithResult content.BrowserThread.ID.ThreadIO
    (fun request_context_getter =>
      RegisterProtocolInIO F job request_context_getter scheme handler)
    (BindOnIOCompleted callback) t

/-- The member Protocol::UnregisterProtocol. -/
def UnregisterProtocol {σ η τ : Type}
    (F : net.URLRequestJobFactory σ η) (scheme : String) (args : mate.Arguments τ)
    (t : content.BrowserThreads (brightray.URLRequestContextGetter σ η) (Owner τ)) :
    content.BrowserThreads (brightray.URLRequestContextGetter σ η) (Owner τ) :=
  let callback := args.GetNext
  content.BrowserThread.PostTaskAndReplyWithResult content.BrowserThread.ID.ThreadIO
    (fun request_context_getter =>
      UnregisterProtocolInIO F request_context_getter scheme)
    (BindOnIOCompleted callback) t

/-- The static member Protocol::IsProtocolHandledInIO, returning its result and
the request context it leaves. -/
def IsProtocolHandledInIO {σ η : Type}
    (F : net.URLRequestJobFactory σ η)
    (request_context_getter : brightray.URLRequestContextGetter σ η)
    (scheme : String) : Bool × brightray.URLRequestContextGetter σ η :=
  brightray.URLRequestContextGetter.IsHandledProtocol F scheme request_context_getter

/-- The member Protocol::IsProtocolHandled. -/
def IsProtocolHandled {σ η τ : Type}
    (F : net.URLRequestJobFactory σ η) (scheme : String) (callback : BooleanCallback τ)
    (t : content.BrowserThreads (brightray.URLRequestContextGetter σ η) (Owner τ)) :
    content.BrowserThreads (brightray.URLRequestContextGetter σ η) (Owner τ) :=
  content.BrowserThread.PostTaskAndReplyWithResult content.BrowserThread.ID.ThreadIO
    (fun request_context_getter =>
      IsProtocolHandledInIO F request_context_getter scheme)
    (RunBoolean callback) t

end atom.api.Protocol

/-! ## Properties of the standard-scheme list -/

open atom.api.Protocol

/-- After one call of atom::api::RegisterStandardSchemes the list returned by
GetStandardSchemes is the argument of that call, whatever it was before. -/
theorem GetStandardSchemes_RegisterStandardSchemes (schemes : List String) (p : Process) :
    atom.api.GetStandardSchemes (atom.api.RegisterStandardSchemes schemes p) = schemes := by
  have key : ∀ (l : List String) (q : Process),
      (l.foldl
        (fun q scheme =>
          content.ChildProcessSecurityPolicy.RegisterWebSafeScheme scheme
            (url.AddStandardScheme (c_str scheme) url.SchemeType.SCHEME_WITH_HOST q))
        q).g_standard_schemes = q.g_standard_schemes := by
    intro l
    induction l with
    | nil => intro q; rfl
    | cons a l ih =>
      intro q
      rw [List.foldl_cons, ih]
      rfl
  simp only [atom.api.GetStandardSchemes, atom.api.RegisterStandardSchemes,
    base.CommandLine.AppendSwitchASCII]
  rw [key]

/-- After a non-empty run of calls of atom::api::RegisterStandardSchemes the list
returned by GetStandardSchemes is the argument of the last call. -/
theorem GetStandardSchemes_RegisterStandardSchemesSeq (calls : List (List String))
    (last : List String) (p : Process) :
    atom.api.GetStandardSchemes (atom.api.RegisterStandardSchemesSeq (calls ++ [last]) p)
      = last := by
  simp only [atom.api.RegisterStandardSchemesSeq, List.foldl_append, List.foldl_cons,
    List.foldl_nil]
  exact GetStandardSchemes_RegisterStandardSchemes last _

/-- C3: the binding registerStandardSchemes throws its message exactly when the
browser is ready; when it throws the process state, and so the list returned by
GetStandardSchemes, is unchanged; when the browser is not ready it throws nothing
and leaves the state atom::api::RegisterStandardSchemes leaves. -/
theorem registerStandardSchemes_throws_iff_ready (schemes : List String) (p : Process) :
    ((RegisterStandardSchemes schemes p).1
        = some "protocol.registerStandardSchemes should be called before app is ready"
      ↔ p.browser_is_ready = true) ∧
    ((RegisterStandardSchemes schemes p).1 ≠ none ↔ p.browser_is_ready = true) ∧
    ((RegisterStandardSchemes schemes p).1 ≠ none →
      (RegisterStandardSchemes schemes p).2 = p ∧
      atom.api.GetStandardSchemes (RegisterStandardSchemes schemes p).2
        = atom.api.GetStandardSchemes p) ∧
    (p.browser_is_ready = false →
      (RegisterStandardSchemes schemes p).1 = none ∧
      (RegisterStandardSchemes schemes p).2
        = atom.api.RegisterStandardSchemes schemes p) := by
  unfold RegisterStandardSchemes
  cases h : p.browser_is_ready <;> simp

/-- Witness of C3 on a ready browser: the call throws and the list of standard
schemes stays as it was. -/
theorem registerStandardSchemes_throws_iff_ready_witness :
    (RegisterStandardSchemes ["app"] ⟨["brave"], [], [], [], true⟩).1 ≠ none ∧
    atom.api.GetStandardSchemes
      (RegisterStandardSchemes ["app"] ⟨["brave"], [], [], [], true⟩).2 = ["brave"] :=
  ⟨by decide,
   ((registerStandardSchemes_throws_iff_ready ["app"]
      ⟨["brave"], [], [], [], true⟩).2.2.1 (by decide)).2⟩

/-- C6: two calls of registerStandardSchemes before the browser is ready, the
first with the scheme a and the second with the scheme b. Neither call throws,
a is registered with the URL library and with the security policy, and the list
returned by GetStandardSchemes is [b], which does not contain a. -/
theorem GetStandardSchemes_drops_earlier_call :
    (RegisterStandardSchemes ["a"] ⟨[], [], [], [], false⟩).1 = none ∧
    (RegisterStandardSchemes ["b"]
      (RegisterStandardSchemes ["a"] ⟨[], [], [], [], false⟩).2).1 = none ∧
    (RegisterStandardSchemes ["b"]
      (RegisterStandardSchemes ["a"] ⟨[], [], [], [], false⟩).2).2
      = atom.api.RegisterStandardSchemesSeq [["a"], ["b"]] ⟨[], [], [], [], false⟩ ∧
    ("a", url.SchemeType.SCHEME_WITH_HOST) ∈
      (atom.api.RegisterStandardSchemesSeq [["a"], ["b"]]
        ⟨[], [], [], [], false⟩).url_standard_schemes ∧
    "a" ∈ (atom.api.RegisterStandardSchemesSeq [["a"], ["b"]]
        ⟨[], [], [], [], false⟩).web_safe_schemes ∧
    atom.api.GetStandardSchemes
      (atom.api.RegisterStandardSchemesSeq [["a"], ["b"]] ⟨[], [], [], [], false⟩)
      = ["b"] ∧
    "a" ∉ atom.api.GetStandardSchemes
      (atom.api.RegisterStandardSchemesSeq [["a"], ["b"]] ⟨[], [], [], [], false⟩) := by
  decide

/-! ## Properties of the tasks that run against the job factory -/

/-- The call log after a logged IsHandledProtocol has the SetProtocolHandler calls
it had before. -/
theorem SetProtocolHandlerCalls_append_IsHandledProtocol {η : Type}
    (calls : List (brightray.FactoryCall η)) (scheme : String) :
    brightray.SetProtocolHandlerCalls
        (calls ++ [brightray.FactoryCall.IsHandledProtocol scheme])
      = brightray.SetProtocolHandlerCalls calls := by
  simp [brightray.SetProtocolHandlerCalls, List.filterMap_append]

/-- The call log after a logged SetProtocolHandler has one more SetProtocolHandler
call, the one just made. -/
theorem SetProtocolHandlerCalls_append_SetProtocolHandler {η : Type}
    (calls : List (brightray.FactoryCall η)) (scheme : String) (h : Option η) :
    brightray.SetProtocolHandlerCalls
        (calls ++ [brightray.FactoryCall.SetProtocolHandler scheme h])
      = brightray.SetProtocolHandlerCalls calls ++ [(scheme, h)] := by
  simp [brightray.SetProtocolHandlerCalls, List.filterMap_append]

/-- C1: when the factory already handles the scheme, RegisterProtocolInIO returns
PROTOCOL_REGISTERED, whose message is "The scheme has been registered"; it makes
no call of SetProtocolHandler (its only call into the factory is
IsHandledProtocol) and the factory state is the one it started from, so the
scheme is still handled. -/
theorem RegisterProtocolInIO_handled_scheme {σ H : Type}
    (F : net.URLRequestJobFactory σ (CustomProtocolHandler H)) (job : RequestJob)
    (g : brightray.URLRequestContextGetter σ (CustomProtocolHandler H))
    (scheme : String) (handler : H)
    (handled : F.IsHandledProtocol g.job_factory scheme = true) :
    ( RegisterProtocolInIO F job g scheme handler).1 = ProtocolError.PROTOCOL_REGISTERED ∧
    ErrorCodeToString ( RegisterProtocolInIO F job g scheme handler).1
      = "The scheme has been registered" ∧
    ( RegisterProtocolInIO F job g scheme handler).2.calls
      = g.calls ++ [brightray.FactoryCall.IsHandledProtocol scheme] ∧
    brightray.SetProtocolHandlerCalls ( RegisterProtocolInIO F job g scheme handler).2.calls
      = brightray.SetProtocolHandlerCalls g.calls ∧
    ( RegisterProtocolInIO F job g scheme handler).2.job_factory = g.job_factory ∧
    F.IsHandledProtocol ( RegisterProtocolInIO F job g scheme handler).2.job_factory scheme
      = true := by
  have e : RegisterProtocolInIO F job g scheme handler
      = (ProtocolError.PROTOCOL_REGISTERED,
         { g with calls := g.calls ++ [brightray.FactoryCall.IsHandledProtocol scheme] }) := by
    simp [ RegisterProtocolInIO, brightray.URLRequestContextGetter.IsHandledProtocol, handled]
  rw [e]
  refine ⟨rfl, rfl, rfl, ?_, rfl, handled⟩
  exact SetProtocolHandlerCalls_append_IsHandledProtocol g.calls scheme

/-- Witness of C1: a factory whose map has a handler for the scheme app; a second
registration of app is answered with PROTOCOL_REGISTERED and the map is kept. -/
theorem RegisterProtocolInIO_handled_scheme_witness :
    (net.URLRequestJobFactoryImpl.ops (CustomProtocolHandler Nat)).IsHandledProtocol
      ⟨[("app", ⟨RequestJob.URLRequestStringJob, 1⟩)]⟩ "app" = true ∧
    ( RegisterProtocolInIO (net.URLRequestJobFactoryImpl.ops (CustomProtocolHandler Nat))
        RequestJob.URLRequestBufferJob
        ⟨⟨[("app", ⟨RequestJob.URLRequestStringJob, 1⟩)]⟩, []⟩ "app" 2).1
      = ProtocolError.PROTOCOL_REGISTERED ∧
    ( RegisterProtocolInIO (net.URLRequestJobFactoryImpl.ops (CustomProtocolHandler Nat))
        RequestJob.URLRequestBufferJob
        ⟨⟨[("app", ⟨RequestJob.URLRequestStringJob, 1⟩)]⟩, []⟩ "app" 2).2.job_factory
      = ⟨[("app", ⟨RequestJob.URLRequestStringJob, 1⟩)]⟩ :=
  ⟨by decide,
   ( RegisterProtocolInIO_handled_scheme
      (net.URLRequestJobFactoryImpl.ops (CustomProtocolHandler Nat))
      RequestJob.URLRequestBufferJob
      ⟨⟨[("app", ⟨RequestJob.URLRequestStringJob, 1⟩)]⟩, []⟩ "app" 2 (by decide)).1,
   ( RegisterProtocolInIO_handled_scheme
      (net.URLRequestJobFactoryImpl.ops (CustomProtocolHandler Nat))
      RequestJob.URLRequestBufferJob
      ⟨⟨[("app", ⟨RequestJob.URLRequestStringJob, 1⟩)]⟩, []⟩ "app" 2 (by decide)).2.2.2.2.1⟩

/-- C5: when the factory does not handle the scheme, RegisterProtocolInIO calls
SetProtocolHandler exactly once, with the scheme and the new handler, leaves the
factory in the state that call leaves, and returns PROTOCOL_OK exactly when the
call reports success and PROTOCOL_FAIL exactly when it reports failure. On every
input the result is none of PROTOCOL_NOT_REGISTERED, PROTOCOL_INTERCEPTED and
PROTOCOL_NOT_INTERCEPTED. -/
theorem RegisterProtocolInIO_unhandled_scheme {σ H : Type}
    (F : net.URLRequestJobFactory σ (CustomProtocolHandler H)) (job : RequestJob)
    (g : brightray.URLRequestContextGetter σ (CustomProtocolHandler H))
    (scheme : String) (handler : H) :
    (F.IsHandledProtocol g.job_factory scheme = false →
      brightray.SetProtocolHandlerCalls
          ( RegisterProtocolInIO F job g scheme handler).2.calls
        = brightray.SetProtocolHandlerCalls g.calls
            ++ [(scheme, some { job := job, handler := handler })] ∧
      ( RegisterProtocolInIO F job g scheme handler).2.calls
        = g.calls ++ [brightray.FactoryCall.IsHandledProtocol scheme,
            brightray.FactoryCall.SetProtocolHandler scheme
              (some { job := job, handler := handler })] ∧
      ( RegisterProtocolInIO F job g scheme handler).2.job_factory
        = (F.SetProtocolHandler g.job_factory scheme
            (some { job := job, handler := handler })).2 ∧
      (( RegisterProtocolInIO F job g scheme handler).1 = ProtocolError.PROTOCOL_OK ↔
        (F.SetProtocolHandler g.job_factory scheme
            (some { job := job, handler := handler })).1 = true) ∧
      (( RegisterProtocolInIO F job g scheme handler).1 = ProtocolError.PROTOCOL_FAIL ↔
        (F.SetProtocolHandler g.job_factory scheme
            (some { job := job, handler := handler })).1 = false)) ∧
    ( RegisterProtocolInIO F job g scheme handler).1
      ≠ ProtocolError.PROTOCOL_NOT_REGISTERED ∧
    ( RegisterProtocolInIO F job g scheme handler).1
      ≠ ProtocolError.PROTOCOL_INTERCEPTED ∧
    ( RegisterProtocolInIO F job g scheme handler).1
      ≠ ProtocolError.PROTOCOL_NOT_INTERCEPTED := by
  cases handled : F.IsHandledProtocol g.job_factory scheme
  · cases ok : (F.SetProtocolHandler g.job_factory scheme
        (some { job := job, handler := handler })).1 <;>
      simp [ RegisterProtocolInIO, brightray.URLRequestContextGetter.IsHandledProtocol,
        brightray.URLRequestContextGetter.SetProtocolHandler,
        brightray.SetProtocolHandlerCalls, List.filterMap_append, handled, ok]
  · simp [ RegisterProtocolInIO, brightray.URLRequestContextGetter.IsHandledProtocol, handled]

/-- Witness of C5: the scheme app is not handled by the factory with an empty map;
registering it succeeds and installs the new handler. -/
theorem RegisterProtocolInIO_unhandled_scheme_witness :
    (net.URLRequestJobFactoryImpl.ops (CustomProtocolHandler Nat)).IsHandledProtocol
      ⟨[]⟩ "app" = false ∧
    ( RegisterProtocolInIO (net.URLRequestJobFactoryImpl.ops (CustomProtocolHandler Nat))
        RequestJob.URLRequestStringJob ⟨⟨[]⟩, []⟩ "app" 1).2.job_factory
      = ((net.URLRequestJobFactoryImpl.ops (CustomProtocolHandler Nat)).SetProtocolHandler
          ⟨[]⟩ "app" (some { job := RequestJob.URLRequestStringJob, handler := 1 })).2 :=
  ⟨by decide,
   (( RegisterProtocolInIO_unhandled_scheme
      (net.URLRequestJobFactoryImpl.ops (CustomProtocolHandler Nat))
      RequestJob.URLRequestStringJob ⟨⟨[]⟩, []⟩ "app" 1).1 (by decide)).2.2.1⟩

/-- Whenever the factory handles the scheme, UnregisterProtocolInIO returns
PROTOCOL_OK, whatever its call of SetProtocolHandler reports. -/
theorem UnregisterProtocolInIO_handled_returns_OK {σ η : Type}
    (F : net.URLRequestJobFactory σ η) (g : brightray.URLRequestContextGetter σ η)
    (scheme : String) (handled : F.IsHandledProtocol g.job_factory scheme = true) :
    ( UnregisterProtocolInIO F g scheme).1 = ProtocolError.PROTOCOL_OK := by
  simp [ UnregisterProtocolInIO, brightray.URLRequestContextGetter.IsHandledProtocol, handled]

/-- On no input does UnregisterProtocolInIO return PROTOCOL_FAIL. -/
theorem UnregisterProtocolInIO_never_FAIL {σ η : Type}
    (F : net.URLRequestJobFactory σ η) (g : brightray.URLRequestContextGetter σ η)
    (scheme : String) :
    ( UnregisterProtocolInIO F g scheme).1 ≠ ProtocolError.PROTOCOL_FAIL := by
  cases handled : F.IsHandledProtocol g.job_factory scheme <;>
    simp [ UnregisterProtocolInIO, brightray.URLRequestContextGetter.IsHandledProtocol, handled]

/-- C4: when the factory does not handle the scheme, UnregisterProtocolInIO
returns PROTOCOL_NOT_REGISTERED, whose message is "The scheme has not been
registered"; it makes no call of SetProtocolHandler and the factory state is the
one it started from. When the factory handles the scheme the result is not
PROTOCOL_NOT_REGISTERED. -/
theorem UnregisterProtocolInIO_not_registered {σ η : Type}
    (F : net.URLRequestJobFactory σ η) (g : brightray.URLRequestContextGetter σ η)
    (scheme : String) :
    (F.IsHandledProtocol g.job_factory scheme = false →
      ( UnregisterProtocolInIO F g scheme).1 = ProtocolError.PROTOCOL_NOT_REGISTERED ∧
      ErrorCodeToString ( UnregisterProtocolInIO F g scheme).1
        = "The scheme has not been registered" ∧
      ( UnregisterProtocolInIO F g scheme).2.calls
        = g.calls ++ [brightray.FactoryCall.IsHandledProtocol scheme] ∧
      brightray.SetProtocolHandlerCalls ( UnregisterProtocolInIO F g scheme).2.calls
        = brightray.SetProtocolHandlerCalls g.calls ∧
      ( UnregisterProtocolInIO F g scheme).2.job_factory = g.job_factory) ∧
    (F.IsHandledProtocol g.job_factory scheme = true →
      ( UnregisterProtocolInIO F g scheme).1 ≠ ProtocolError.PROTOCOL_NOT_REGISTERED) := by
  constructor
  · intro handled
    have e : UnregisterProtocolInIO F g scheme
        = (ProtocolError.PROTOCOL_NOT_REGISTERED,
           { g with calls := g.calls ++ [brightray.FactoryCall.IsHandledProtocol scheme] }) := by
      simp [ UnregisterProtocolInIO, brightray.URLRequestContextGetter.IsHandledProtocol,
        handled]
    rw [e]
    refine ⟨rfl, rfl, rfl, ?_, rfl⟩
    exact SetProtocolHandlerCalls_append_IsHandledProtocol g.calls scheme
  · intro handled
    rw [ UnregisterProtocolInIO_handled_returns_OK F g scheme handled]
    decide

/-- Witness of C4: the scheme app is not handled by the factory whose map only
has brave, so unregistering app is answered with PROTOCOL_NOT_REGISTERED and the
map is kept; brave is handled and unregistering it is not answered so. -/
theorem UnregisterProtocolInIO_not_registered_witness :
    ((net.URLRequestJobFactoryImpl.ops Nat).IsHandledProtocol ⟨[("brave", 1)]⟩ "app" = false ∧
      ( UnregisterProtocolInIO (net.URLRequestJobFactoryImpl.ops Nat)
          ⟨⟨[("brave", 1)]⟩, []⟩ "app").2.job_factory = ⟨[("brave", 1)]⟩) ∧
    ((net.URLRequestJobFactoryImpl.ops Nat).IsHandledProtocol ⟨[("brave", 1)]⟩ "brave" = true ∧
      ( UnregisterProtocolInIO (net.URLRequestJobFactoryImpl.ops Nat)
          ⟨⟨[("brave", 1)]⟩, []⟩ "brave").1 ≠ ProtocolError.PROTOCOL_NOT_REGISTERED) :=
  ⟨⟨by decide,
    (( UnregisterProtocolInIO_not_registered (net.URLRequestJobFactoryImpl.ops Nat)
        ⟨⟨[("brave", 1)]⟩, []⟩ "app").1 (by decide)).2.2.2.2⟩,
   ⟨by decide,
    ( UnregisterProtocolInIO_not_registered (net.URLRequestJobFactoryImpl.ops Nat)
        ⟨⟨[("brave", 1)]⟩, []⟩ "brave").2 (by decide)⟩⟩

/-- C8: the factory with an empty handler map handles http through a built-in
factory. Unregistering http calls SetProtocolHandler(http, null) once; that call
reports failure and removes nothing, the factory still handles http, and
UnregisterProtocolInIO returns PROTOCOL_OK, not PROTOCOL_FAIL. -/
theorem UnregisterProtocolInIO_OK_on_failed_removal :
    (net.URLRequestJobFactoryImpl.ops Nat).IsHandledProtocol ⟨[]⟩ "http" = true ∧
    brightray.SetProtocolHandlerCalls
      ( UnregisterProtocolInIO (net.URLRequestJobFactoryImpl.ops Nat)
          ⟨⟨[]⟩, []⟩ "http").2.calls = [("http", none)] ∧
    ((net.URLRequestJobFactoryImpl.ops Nat).SetProtocolHandler ⟨[]⟩ "http" none).1 = false ∧
    ( UnregisterProtocolInIO (net.URLRequestJobFactoryImpl.ops Nat)
        ⟨⟨[]⟩, []⟩ "http").2.job_factory = ⟨[]⟩ ∧
    (net.URLRequestJobFactoryImpl.ops Nat).IsHandledProtocol
      ( UnregisterProtocolInIO (net.URLRequestJobFactoryImpl.ops Nat)
          ⟨⟨[]⟩, []⟩ "http").2.job_factory "http" = true ∧
    ( UnregisterProtocolInIO (net.URLRequestJobFactoryImpl.ops Nat)
        ⟨⟨[]⟩, []⟩ "http").1 = ProtocolError.PROTOCOL_OK ∧
    ( UnregisterProtocolInIO (net.URLRequestJobFactoryImpl.ops Nat)
        ⟨⟨[]⟩, []⟩ "http").1 ≠ ProtocolError.PROTOCOL_FAIL := by
  decide

/-! ## Properties of the reply that reports to the script -/

/-- C2: with a non-null callback, OnIOCompleted runs the callback exactly once,
with an argument v that is the null value exactly when the error is PROTOCOL_OK
and is otherwise an Error carrying ErrorCodeToString of the error. The five
failure codes have the five messages of the table, which are pairwise distinct
and none of which is "Unexpected error". -/
theorem OnIOCompleted_runs_callback_once {τ : Type} (run : V8Value → τ → τ)
    (error : ProtocolError) (s : Script τ) :
    (∃ v : V8Value,
      Runs (OnIOCompleted (some run) error s).events = Runs s.events ++ [v] ∧
      (OnIOCompleted (some run) error s).state = run v s.state ∧
      (v = V8Value.Null ↔ error = ProtocolError.PROTOCOL_OK) ∧
      (error ≠ ProtocolError.PROTOCOL_OK → v = V8Value.Error (ErrorCodeToString error))) ∧
    ErrorCodeToString ProtocolError.PROTOCOL_FAIL
      = "Failed to manipulate protocol factory" ∧
    ErrorCodeToString ProtocolError.PROTOCOL_REGISTERED
      = "The scheme has been registered" ∧
    ErrorCodeToString ProtocolError.PROTOCOL_NOT_REGISTERED
      = "The scheme has not been registered" ∧
    ErrorCodeToString ProtocolError.PROTOCOL_INTERCEPTED
      = "The scheme has been intercepted" ∧
    ErrorCodeToString ProtocolError.PROTOCOL_NOT_INTERCEPTED
      = "The scheme has not been intercepted" ∧
    ([ProtocolError.PROTOCOL_FAIL, ProtocolError.PROTOCOL_REGISTERED,
      ProtocolError.PROTOCOL_NOT_REGISTERED, ProtocolError.PROTOCOL_INTERCEPTED,
      ProtocolError.PROTOCOL_NOT_INTERCEPTED].map ErrorCodeToString).Nodup ∧
    "Unexpected error" ∉
      [ProtocolError.PROTOCOL_FAIL, ProtocolError.PROTOCOL_REGISTERED,
       ProtocolError.PROTOCOL_NOT_REGISTERED, ProtocolError.PROTOCOL_INTERCEPTED,
       ProtocolError.PROTOCOL_NOT_INTERCEPTED].map ErrorCodeToString := by
  refine ⟨?_, rfl, rfl, rfl, rfl, rfl, by decide, by decide⟩
  by_cases ok : error = ProtocolError.PROTOCOL_OK
  · refine ⟨V8Value.Null, ?_, ?_, ?_, ?_⟩
    · simp [OnIOCompleted, Run, Runs, List.filterMap_append, ok]
    · simp [OnIOCompleted, Run, ok]
    · simp [ok]
    · intro h; exact absurd ok h
  · refine ⟨V8Value.Error (ErrorCodeToString error), ?_, ?_, ?_, ?_⟩
    · simp [OnIOCompleted, Run, BuildMessage, Runs, List.filterMap_append, ok]
    · simp [OnIOCompleted, Run, BuildMessage, ok]
    · simp [ok]
    · intro _; rfl

/-- C7: with a null callback, OnIOCompleted leaves the script side as it was for
every error code: no callback run and no error message is added to the log, the
script state is unchanged, and the outcome does not depend on the error code. -/
theorem OnIOCompleted_null_callback {τ : Type} (error : ProtocolError) (s : Script τ) :
    OnIOCompleted none error s = s ∧
    Runs (OnIOCompleted none error s).events = Runs s.events ∧
    Messages (OnIOCompleted none error s).events = Messages s.events ∧
    (OnIOCompleted none error s).events = s.events ∧
    (OnIOCompleted none error s).state = s.state ∧
    ∀ other : ProtocolError, OnIOCompleted none other s = OnIOCompleted none error s :=
  ⟨rfl, rfl, rfl, rfl, rfl, fun _ => rfl⟩

/-! ## Properties of the methods that post to the network thread -/

/-- From idle threads, after one PostTaskAndReplyWithResult to the network thread
and any schedule, the threads are in one of three states: the task is still
queued and nothing has changed; the task has run on the network state and its
reply is queued; or the reply has then run on the origin state with the result
of the task. -/
theorem Run_PostTaskAndReplyWithResult {γ υ ρ : Type} (task : γ → ρ × γ)
    (reply : ρ → υ → υ) (g : γ) (u : υ) (steps : List content.Step) :
    content.Run steps
        (content.BrowserThread.PostTaskAndReplyWithResult content.BrowserThread.ID.ThreadIO
          task reply ⟨g, u, [], []⟩)
      = content.BrowserThread.PostTaskAndReplyWithResult content.BrowserThread.ID.ThreadIO
          task reply ⟨g, u, [], []⟩ ∨
    content.Run steps
        (content.BrowserThread.PostTaskAndReplyWithResult content.BrowserThread.ID.ThreadIO
          task reply ⟨g, u, [], []⟩)
      = ⟨(task g).2, u, [], [reply (task g).1]⟩ ∨
    content.Run steps
        (content.BrowserThread.PostTaskAndReplyWithResult content.BrowserThread.ID.ThreadIO
          task reply ⟨g, u, [], []⟩)
      = ⟨(task g).2, reply (task g).1 u, [], []⟩ := by
  have closed : ∀ (steps : List content.Step) (t : content.BrowserThreads γ υ),
      (t = content.BrowserThread.PostTaskAndReplyWithResult content.BrowserThread.ID.ThreadIO
            task reply ⟨g, u, [], []⟩ ∨
        t = ⟨(task g).2, u, [], [reply (task g).1]⟩ ∨
        t = ⟨(task g).2, reply (task g).1 u, [], []⟩) →
      (content.Run steps t
          = content.BrowserThread.PostTaskAndReplyWithResult content.BrowserThread.ID.ThreadIO
              task reply ⟨g, u, [], []⟩ ∨
        content.Run steps t = ⟨(task g).2, u, [], [reply (task g).1]⟩ ∨
        content.Run steps t = ⟨(task g).2, reply (task g).1 u, [], []⟩) := by
    intro steps
    induction steps with
    | nil => intro t h; exact h
    | cons step steps ih =>
      intro t h
      have unfold_run : content.Run (step :: steps) t = content.Run steps (step.apply t) := rfl
      rw [unfold_run]
      apply ih
      rcases h with h | h | h <;> subst h <;> cases step
      · exact Or.inr (Or.inl rfl)
      · exact Or.inl rfl
      · exact Or.inr (Or.inl rfl)
      · exact Or.inr (Or.inr rfl)
      · exact Or.inr (Or.inr rfl)
      · exact Or.inr (Or.inr rfl)
  exact closed steps _ (Or.inl rfl)

/-- C9: RegisterProtocol, UnregisterProtocol and IsProtocolHandled, called in any
state of the threads, leave the request context (the factory state and the log
of calls into the factory), the state of the calling thread and the queued
replies as they were, and queue exactly one task, posted to the network thread, which
runs the matching InIO function on the request context it finds and binds the
reply to its result. From idle threads and under every schedule, the request
context is either untouched, with the calling thread untouched too, or it is the
one the InIO function leaves, and the calling thread is then untouched or has
run the reply with the result of the InIO function. Under the schedule that runs
the task and then the reply, the completion callback goes through OnIOCompleted
with the result of the InIO function (if the Protocol object still exists), and
the boolean callback runs with the result of IsProtocolHandledInIO. -/
theorem methods_touch_factory_only_in_posted_task {σ H τ : Type}
    (F : net.URLRequestJobFactory σ (CustomProtocolHandler H)) (job : RequestJob)
    (scheme : String) (handler : H) (args : mate.Arguments τ)
    (callback : BooleanCallback τ)
    (t : content.BrowserThreads
      (brightray.URLRequestContextGetter σ (CustomProtocolHandler H)) (Owner τ))
    (g : brightray.URLRequestContextGetter σ (CustomProtocolHandler H)) (u : Owner τ)
    (steps : List content.Step) :
    -- RegisterProtocol
    ((RegisterProtocol F job scheme handler args t).network = t.network ∧
      (RegisterProtocol F job scheme handler args t).origin = t.origin ∧
      (RegisterProtocol F job scheme handler args t).replies = t.replies ∧
      (∃ p, (RegisterProtocol F job scheme handler args t).posted = t.posted ++ [p] ∧
        p.identifier = content.BrowserThread.ID.ThreadIO ∧
        ∀ c, p.run c
          = (BindOnIOCompleted args.GetNext ( RegisterProtocolInIO F job c scheme handler).1,
             ( RegisterProtocolInIO F job c scheme handler).2))) ∧
    (((content.Run steps (RegisterProtocol F job scheme handler args ⟨g, u, [], []⟩)).network
          = g ∧
        (content.Run steps (RegisterProtocol F job scheme handler args ⟨g, u, [], []⟩)).origin
          = u) ∨
      ((content.Run steps (RegisterProtocol F job scheme handler args ⟨g, u, [], []⟩)).network
          = ( RegisterProtocolInIO F job g scheme handler).2 ∧
        ((content.Run steps
            (RegisterProtocol F job scheme handler args ⟨g, u, [], []⟩)).origin = u ∨
          (content.Run steps
            (RegisterProtocol F job scheme handler args ⟨g, u, [], []⟩)).origin
            = BindOnIOCompleted args.GetNext
                ( RegisterProtocolInIO F job g scheme handler).1 u))) ∧
    (content.Run [content.Step.RunReply]
        (RegisterProtocol F job scheme handler args ⟨g, u, [], []⟩)
      = RegisterProtocol F job scheme handler args ⟨g, u, [], []⟩) ∧
    ((content.Run [content.Step.RunTask, content.Step.RunReply]
        (RegisterProtocol F job scheme handler args ⟨g, u, [], []⟩)).network
      = ( RegisterProtocolInIO F job g scheme handler).2) ∧
    ((content.Run [content.Step.RunTask, content.Step.RunReply]
        (RegisterProtocol F job scheme handler args ⟨g, u, [], []⟩)).origin
      = if u.weak_ptr_valid then
          { u with
            script := OnIOCompleted args.GetNext
              ( RegisterProtocolInIO F job g scheme handler).1 u.script }
        else u) ∧
    -- UnregisterProtocol
    ((UnregisterProtocol F scheme args t).network = t.network ∧
      (UnregisterProtocol F scheme args t).origin = t.origin ∧
      (UnregisterProtocol F scheme args t).replies = t.replies ∧
      (∃ p, (UnregisterProtocol F scheme args t).posted = t.posted ++ [p] ∧
        p.identifier = content.BrowserThread.ID.ThreadIO ∧
        ∀ c, p.run c
          = (BindOnIOCompleted args.GetNext ( UnregisterProtocolInIO F c scheme).1,
             ( UnregisterProtocolInIO F c scheme).2))) ∧
    (((content.Run steps (UnregisterProtocol F scheme args ⟨g, u, [], []⟩)).network = g ∧
        (content.Run steps (UnregisterProtocol F scheme args ⟨g, u, [], []⟩)).origin = u) ∨
      ((content.Run steps (UnregisterProtocol F scheme args ⟨g, u, [], []⟩)).network
          = ( UnregisterProtocolInIO F g scheme).2 ∧
        ((content.Run steps (UnregisterProtocol F scheme args ⟨g, u, [], []⟩)).origin = u ∨
          (content.Run steps (UnregisterProtocol F scheme args ⟨g, u, [], []⟩)).origin
            = BindOnIOCompleted args.GetNext ( UnregisterProtocolInIO F g scheme).1 u))) ∧
    (content.Run [content.Step.RunReply] (UnregisterProtocol F scheme args ⟨g, u, [], []⟩)
      = UnregisterProtocol F scheme args ⟨g, u, [], []⟩) ∧
    ((content.Run [content.Step.RunTask, content.Step.RunReply]
        (UnregisterProtocol F scheme args ⟨g, u, [], []⟩)).network
      = ( UnregisterProtocolInIO F g scheme).2) ∧
    ((content.Run [content.Step.RunTask, content.Step.RunReply]
        (UnregisterProtocol F scheme args ⟨g, u, [], []⟩)).origin
      = if u.weak_ptr_valid then
          { u with
            script := OnIOCompleted args.GetNext
              ( UnregisterProtocolInIO F g scheme).1 u.script }
        else u) ∧
    -- IsProtocolHandled
    ((IsProtocolHandled F scheme callback t).network = t.network ∧
      (IsProtocolHandled F scheme callback t).origin = t.origin ∧
      (IsProtocolHandled F scheme callback t).replies = t.replies ∧
      (∃ p, (IsProtocolHandled F scheme callback t).posted = t.posted ++ [p] ∧
        p.identifier = content.BrowserThread.ID.ThreadIO ∧
        ∀ c, p.run c
          = (RunBoolean callback ( IsProtocolHandledInIO F c scheme).1,
             ( IsProtocolHandledInIO F c scheme).2))) ∧
    (((content.Run steps (IsProtocolHandled F scheme callback ⟨g, u, [], []⟩)).network = g ∧
        (content.Run steps (IsProtocolHandled F scheme callback ⟨g, u, [], []⟩)).origin = u) ∨
      ((content.Run steps (IsProtocolHandled F scheme callback ⟨g, u, [], []⟩)).network
          = ( IsProtocolHandledInIO F g scheme).2 ∧
        ((content.Run steps (IsProtocolHandled F scheme callback ⟨g, u, [], []⟩)).origin = u ∨
          (content.Run steps (IsProtocolHandled F scheme callback ⟨g, u, [], []⟩)).origin
            = RunBoolean callback ( IsProtocolHandledInIO F g scheme).1 u))) ∧
    (content.Run [content.Step.RunReply] (IsProtocolHandled F scheme callback ⟨g, u, [], []⟩)
      = IsProtocolHandled F scheme callback ⟨g, u, [], []⟩) ∧
    ((content.Run [content.Step.RunTask, content.Step.RunReply]
        (IsProtocolHandled F scheme callback ⟨g, u, [], []⟩)).network
      = ( IsProtocolHandledInIO F g scheme).2) ∧
    ((content.Run [content.Step.RunTask, content.Step.RunReply]
        (IsProtocolHandled F scheme callback ⟨g, u, [], []⟩)).origin
      = RunBoolean callback (F.IsHandledProtocol g.job_factory scheme) u) := by
  have schedule : ∀ {ρ : Type}
      (task : brightray.URLRequestContextGetter σ (CustomProtocolHandler H) →
        ρ × brightray.URLRequestContextGetter σ (CustomProtocolHandler H))
      (reply : ρ → Owner τ → Owner τ),
      ((content.Run steps
          (content.BrowserThread.PostTaskAndReplyWithResult content.BrowserThread.ID.ThreadIO
            task reply ⟨g, u, [], []⟩)).network = g ∧
        (content.Run steps
          (content.BrowserThread.PostTaskAndReplyWithResult content.BrowserThread.ID.ThreadIO
            task reply ⟨g, u, [], []⟩)).origin = u) ∨
      ((content.Run steps
          (content.BrowserThread.PostTaskAndReplyWithResult content.BrowserThread.ID.ThreadIO
            task reply ⟨g, u, [], []⟩)).network = (task g).2 ∧
        ((content.Run steps
            (content.BrowserThread.PostTaskAndReplyWithResult content.BrowserThread.ID.ThreadIO
              task reply ⟨g, u, [], []⟩)).origin = u ∨
          (content.Run steps
            (content.BrowserThread.PostTaskAndReplyWithResult content.BrowserThread.ID.ThreadIO
              task reply ⟨g, u, [], []⟩)).origin = reply (task g).1 u)) := by
    intro ρ task reply
    rcases Run_PostTaskAndReplyWithResult task reply g u steps with h | h | h <;> rw [h]
    · exact Or.inl ⟨rfl, rfl⟩
    · exact Or.inr ⟨rfl, Or.inl rfl⟩
    · exact Or.inr ⟨rfl, Or.inr rfl⟩
  refine ⟨⟨rfl, rfl, rfl, _, rfl, rfl, fun _ => rfl⟩, schedule _ _, rfl, rfl, rfl,
    ⟨rfl, rfl, rfl, _, rfl, rfl, fun _ => rfl⟩, schedule _ _, rfl, rfl, rfl,
    ⟨rfl, rfl, rfl, _, rfl, rfl, fun _ => rfl⟩, schedule _ _, rfl, rfl, rfl⟩
